import Mathlib

/-!
# Verification of the Ocean Drop Simulator core

Shallow embedding of the repository's two source units:

* `simulation.js` — the `OceanSimulation` driver class (an identical copy of the
  class also heads `app.js`).  JS numbers that only flow through `+ - * /` and
  comparisons are modelled as exact rationals (`ℚ`).  The one field that the
  constructor leaves uninitialised (`stats.coastal`) is modelled by `JNum`,
  which tracks the JavaScript values `undefined` and `NaN` explicitly.
  The two external dependencies of `simulateDay` are parameters:
  - the per-attempt sample/classification (`Math.random` → spherical sampling →
    the injected `onCheckLand` callback, whose `.type`/`.distanceKm` extraction
    on lines 81–82 is folded into the oracle), supplied as `att : ℕ → Attempt`
    giving the data of the i-th attempt of the call;
  - the temperature method `calculateTemperature` (line 127–138), whose value
    `-2 + 32·cos(lat·π/180)` is transcendental (`Math.cos`); the driver logic is
    proved for an arbitrary `tempOf : ℚ → ℚ`, which subsumes it.  A real-valued
    embedding `calculateTemperature : ℝ → ℝ` is given for the record.

* `app.js` geometry — `haversineDistance`, `pointToSegmentDistance`,
  `getDistanceToCoast`, `isPointInPolygon`, `isOnLandPolygon`,
  `getTerrainTypeWithDistance` — embedded over `ℝ` (with `EReal` for the
  JavaScript `Infinity` produced and consumed by the distance estimator).

The timer plumbing (`loop`, `setTimeout`) is not embedded: a tick performs one
`simulateDay`, which the reachability relation models as a step.
-/

/-- A JavaScript numeric slot that may also hold `undefined` (a property that
was never assigned) or `NaN`. -/
inductive JNum where
  | undef : JNum
  | nan : JNum
  | val : ℚ → JNum
deriving DecidableEq

/-- JavaScript `x++` on a numeric slot: `undefined + 1` and `NaN + 1` are `NaN`. -/
def jsIncr : JNum → JNum
  | JNum.val q => JNum.val (q + 1)
  | _ => JNum.nan

/-- JavaScript `x || d` for a numeric `x` (line 3: `config.totalDays || 1825`):
`undefined`, `NaN` and `0` are falsy and yield the default. -/
def jsOrDefault : JNum → ℚ → ℚ
  | JNum.val q, d => if q = 0 then d else q
  | _, d => d

/-- The location classification strings compared by the driver
(`=== 'LAND'`, `=== 'COASTAL'`).  `OTHER` stands for any callback result that
is none of the five zone strings (e.g. the default `onCheckLand` returns
`false`, which is neither `'LAND'` nor `'COASTAL'`). -/
inductive LocationType where
  | LAND | COASTAL | SHELF | FAR | DEEP_OCEAN | OTHER
deriving DecidableEq

/-- Data of one retry-loop attempt inside `simulateDay` (lines 69–82): the
sampled coordinates and the classification returned by the external
`onCheckLand` callback, after the `.type` / `.distanceKm` extraction. -/
structure Attempt where
  lon : ℚ
  lat : ℚ
  locationType : LocationType
  distanceKm : Option ℚ
deriving DecidableEq

/-- A committed Drop record (lines 98–105). -/
structure Drop where
  day : ℕ
  lon : ℚ
  lat : ℚ
  locationType : LocationType
  distanceKm : Option ℚ
  temp : ℚ
deriving DecidableEq

/-- The driver's `this.stats` object.  The constructor (lines 8–14) does not
initialise `coastal`, so that slot is a `JNum`. -/
@[ext] structure Stats where
  land : ℚ
  water : ℚ
  avgTemp : ℚ
  totalAttempts : ℚ
  landAttempts : ℚ
  coastal : JNum
deriving DecidableEq

/-- State of one `OceanSimulation` instance. -/
@[ext] structure OceanSimulation where
  totalDays : ℚ
  currentDay : ℕ
  delay : ℚ
  isRunning : Bool
  drops : List Drop
  stats : Stats
deriving DecidableEq

/-- The constructor (lines 2–14).  Note the stats literal has no `coastal`
property, so `stats.coastal` is `undefined`. -/
def OceanSimulation.init (totalDaysCfg : JNum) : OceanSimulation :=
  { totalDays := jsOrDefault totalDaysCfg 1825
    currentDay := 0
    delay := 50
    isRunning := false
    drops := []
    stats :=
      { land := 0, water := 0, avgTemp := 0, totalAttempts := 0,
        landAttempts := 0, coastal := JNum.undef } }

/-- `reset()` (lines 33–39); here the stats literal does include `coastal: 0`. -/
def OceanSimulation.reset (s : OceanSimulation) : OceanSimulation :=
  { s with
    isRunning := false
    currentDay := 0
    drops := []
    stats :=
      { land := 0, coastal := JNum.val 0, water := 0, avgTemp := 0,
        totalAttempts := 0, landAttempts := 0 } }

/-- `pause()` (lines 29–31). -/
def OceanSimulation.pause (s : OceanSimulation) : OceanSimulation :=
  { s with isRunning := false }

/-- The state change of `start()` (lines 22–27); the tick it kicks off through
`loop()` is modelled as a separate `simulateDay` step. -/
def OceanSimulation.start (s : OceanSimulation) : OceanSimulation :=
  if ¬s.isRunning ∧ (s.currentDay : ℚ) < s.totalDays then
    { s with isRunning := true }
  else s

/-- `setSpeed(speedVal)` (lines 41–45): `delay = 200 - ((speedVal / 100) * 199)`. -/
def OceanSimulation.setSpeed (speedVal : ℚ) (s : OceanSimulation) : OceanSimulation :=
  { s with delay := 200 - speedVal / 100 * 199 }

/-- The retry loop of `simulateDay` (lines 66–108), with `fuel` the remaining
iterations of `while (attempts < 100)` and `i` the index of the next attempt.
Each iteration increments `totalAttempts`; a `LAND` attempt also increments
`landAttempts` and retries; the first non-`LAND` attempt increments
`currentDay` and produces the drop. -/
def simLoop (att : ℕ → Attempt) (tempOf : ℚ → ℚ) :
    ℕ → ℕ → OceanSimulation → OceanSimulation × Option Drop
  | 0, _, s => (s, none)
  | fuel + 1, i, s =>
    let a := att i
    let s1 : OceanSimulation :=
      { s with stats := { s.stats with totalAttempts := s.stats.totalAttempts + 1 } }
    if a.locationType = LocationType.LAND then
      simLoop att tempOf fuel (i + 1)
        { s1 with stats := { s1.stats with landAttempts := s1.stats.landAttempts + 1 } }
    else
      let s2 : OceanSimulation := { s1 with currentDay := s1.currentDay + 1 }
      (s2, some
        { day := s2.currentDay, lon := a.lon, lat := a.lat,
          locationType := a.locationType, distanceKm := a.distanceKm,
          temp := tempOf a.lat })

/-- `simulateDay()` (lines 61–125): run the retry loop; on failure (`!drop`)
return after the warning; on success push the drop and update `water`,
`coastal` (for COASTAL drops) and the running `avgTemp`. -/
def OceanSimulation.simulateDay (att : ℕ → Attempt) (tempOf : ℚ → ℚ)
    (s : OceanSimulation) : OceanSimulation :=
  match simLoop att tempOf 100 0 s with
  | (s1, none) => s1
  | (s1, some drop) =>
    let st1 : Stats := { s1.stats with water := s1.stats.water + 1 }
    let st2 : Stats :=
      if drop.locationType = LocationType.COASTAL then
        { st1 with coastal := jsIncr st1.coastal }
      else st1
    let st3 : Stats :=
      { st2 with avgTemp := st2.avgTemp + (drop.temp - st2.avgTemp) / (s1.currentDay : ℚ) }
    { s1 with drops := s1.drops ++ [drop], stats := st3 }

/-- The temperature model (lines 127–138), over the reals. -/
noncomputable def calculateTemperature (lat : ℝ) : ℝ :=
  -2 + 32 * Real.cos (lat * (Real.pi / 180))

/-- Sum of the `temp` fields of a list of drops. -/
def tempSum (l : List Drop) : ℚ := (l.map Drop.temp).sum

/-- Driver states reachable through the public operations, with `simulateDay`
ticks taken for arbitrary attempt oracles and temperature functions. -/
inductive Reachable : OceanSimulation → Prop
  | init (cfg : JNum) : Reachable (OceanSimulation.init cfg)
  | reset {s : OceanSimulation} : Reachable s → Reachable s.reset
  | pause {s : OceanSimulation} : Reachable s → Reachable s.pause
  | start {s : OceanSimulation} : Reachable s → Reachable s.start
  | setSpeed {s : OceanSimulation} (v : ℚ) : Reachable s → Reachable (s.setSpeed v)
  | step {s : OceanSimulation} (att : ℕ → Attempt) (tempOf : ℚ → ℚ) :
      Reachable s → Reachable (s.simulateDay att tempOf)

/-! ## Lemmas about the retry loop -/

/-- Fields the retry loop never touches: everything except `currentDay`,
`totalAttempts` and `landAttempts`. -/
theorem simLoop_frame (att : ℕ → Attempt) (tempOf : ℚ → ℚ) :
    ∀ (fuel i : ℕ) (s : OceanSimulation),
      (simLoop att tempOf fuel i s).1.totalDays = s.totalDays ∧
      (simLoop att tempOf fuel i s).1.delay = s.delay ∧
      (simLoop att tempOf fuel i s).1.isRunning = s.isRunning ∧
      (simLoop att tempOf fuel i s).1.drops = s.drops ∧
      (simLoop att tempOf fuel i s).1.stats.land = s.stats.land ∧
      (simLoop att tempOf fuel i s).1.stats.water = s.stats.water ∧
      (simLoop att tempOf fuel i s).1.stats.coastal = s.stats.coastal ∧
      (simLoop att tempOf fuel i s).1.stats.avgTemp = s.stats.avgTemp := by
  intro fuel
  induction fuel with
  | zero => intro i s; simp [simLoop]
  | succ fuel ih =>
    intro i s
    by_cases h : (att i).locationType = LocationType.LAND
    · simpa [simLoop, h] using ih (i + 1)
        { s with stats := { s.stats with
            totalAttempts := s.stats.totalAttempts + 1,
            landAttempts := s.stats.landAttempts + 1 } }
    · simp [simLoop, h]

/-- Outcome of the retry loop: either no drop was found, `currentDay` is
unchanged and both attempt counters grew by exactly `fuel` (every attempt was
LAND), or a drop was produced after `k ≤ fuel - 1` LAND attempts, with
`currentDay` advanced by one. -/
theorem simLoop_day (att : ℕ → Attempt) (tempOf : ℚ → ℚ) :
    ∀ (fuel i : ℕ) (s : OceanSimulation),
      ((simLoop att tempOf fuel i s).2 = none ∧
        (simLoop att tempOf fuel i s).1.currentDay = s.currentDay ∧
        (simLoop att tempOf fuel i s).1.stats.totalAttempts
          = s.stats.totalAttempts + (fuel : ℚ) ∧
        (simLoop att tempOf fuel i s).1.stats.landAttempts
          = s.stats.landAttempts + (fuel : ℚ)) ∨
      (∃ (d : Drop) (k : ℕ), (simLoop att tempOf fuel i s).2 = some d ∧
        (simLoop att tempOf fuel i s).1.currentDay = s.currentDay + 1 ∧
        d.day = s.currentDay + 1 ∧ d.temp = tempOf d.lat ∧
        (simLoop att tempOf fuel i s).1.stats.totalAttempts
          = s.stats.totalAttempts + ((k : ℚ) + 1) ∧
        (simLoop att tempOf fuel i s).1.stats.landAttempts
          = s.stats.landAttempts + (k : ℚ) ∧
        k + 1 ≤ fuel) := by
  intro fuel
  induction fuel with
  | zero => intro i s; left; simp [simLoop]
  | succ fuel ih =>
    intro i s
    by_cases h : (att i).locationType = LocationType.LAND
    · have hrw : simLoop att tempOf (fuel + 1) i s
          = simLoop att tempOf fuel (i + 1)
              { s with stats := { s.stats with
                  totalAttempts := s.stats.totalAttempts + 1,
                  landAttempts := s.stats.landAttempts + 1 } } := by
        simp [simLoop, h]
      rw [hrw]
      rcases ih (i + 1)
        { s with stats := { s.stats with
            totalAttempts := s.stats.totalAttempts + 1,
            landAttempts := s.stats.landAttempts + 1 } } with
        ⟨h1, h2, h3, h4⟩ | ⟨d, k, h1, h2, h3, h4, h5, h6, h7⟩
      · left
        refine ⟨h1, ?_, ?_, ?_⟩
        · simpa using h2
        · rw [h3]; push_cast; ring
        · rw [h4]; push_cast; ring
      · right
        refine ⟨d, k + 1, h1, ?_, ?_, h4, ?_, ?_, ?_⟩
        · simpa using h2
        · simpa using h3
        · rw [h5]; push_cast; ring
        · rw [h6]; push_cast; ring
        · omega
    · right
      refine ⟨{ day := s.currentDay + 1, lon := (att i).lon, lat := (att i).lat,
                locationType := (att i).locationType, distanceKm := (att i).distanceKm,
                temp := tempOf (att i).lat }, 0, ?_, ?_, ?_, ?_, ?_, ?_, ?_⟩ <;>
        simp [simLoop, h]

/-- If every attempt the loop can look at classifies LAND, the loop exhausts
its fuel: no drop, and both attempt counters grow by exactly `fuel`. -/
theorem simLoop_allLand (att : ℕ → Attempt) (tempOf : ℚ → ℚ) :
    ∀ (fuel i : ℕ) (s : OceanSimulation),
      (∀ j, i ≤ j → j < i + fuel → (att j).locationType = LocationType.LAND) →
      simLoop att tempOf fuel i s =
        ({ s with stats := { s.stats with
            totalAttempts := s.stats.totalAttempts + (fuel : ℚ),
            landAttempts := s.stats.landAttempts + (fuel : ℚ) } }, none) := by
  intro fuel
  induction fuel with
  | zero =>
    intro i s hland
    refine Prod.ext ?_ (by simp [simLoop])
    apply OceanSimulation.ext <;> simp [simLoop]
  | succ fuel ih =>
    intro i s hland
    have h : (att i).locationType = LocationType.LAND :=
      hland i le_rfl (by omega)
    have hrw : simLoop att tempOf (fuel + 1) i s
        = simLoop att tempOf fuel (i + 1)
            { s with stats := { s.stats with
                totalAttempts := s.stats.totalAttempts + 1,
                landAttempts := s.stats.landAttempts + 1 } } := by
      simp [simLoop, h]
    rw [hrw, ih (i + 1) _ (fun j hj1 hj2 => hland j (by omega) (by omega))]
    refine Prod.ext ?_ rfl
    apply OceanSimulation.ext <;> try rfl
    apply Stats.ext <;> try rfl
    · show s.stats.totalAttempts + 1 + (fuel : ℚ) = s.stats.totalAttempts + ((fuel : ℕ) + 1 : ℕ)
      push_cast; ring
    · show s.stats.landAttempts + 1 + (fuel : ℚ) = s.stats.landAttempts + ((fuel : ℕ) + 1 : ℕ)
      push_cast; ring

/-- Full case analysis of one `simulateDay` call: either exactly one drop is
appended with `currentDay`, `water`, `coastal` and `avgTemp` updated together
(after `k ≤ 99` LAND attempts), or the attempt budget is exhausted and the
only change is `totalAttempts` and `landAttempts` growing by 100. -/
theorem simulateDay_spec (att : ℕ → Attempt) (tempOf : ℚ → ℚ) (s : OceanSimulation) :
    (∃ (d : Drop) (k : ℕ),
      (s.simulateDay att tempOf).drops = s.drops ++ [d] ∧
      (s.simulateDay att tempOf).currentDay = s.currentDay + 1 ∧
      d.day = s.currentDay + 1 ∧
      d.temp = tempOf d.lat ∧
      (s.simulateDay att tempOf).stats.water = s.stats.water + 1 ∧
      (s.simulateDay att tempOf).stats.coastal =
        (if d.locationType = LocationType.COASTAL then jsIncr s.stats.coastal
         else s.stats.coastal) ∧
      (s.simulateDay att tempOf).stats.avgTemp =
        s.stats.avgTemp + (d.temp - s.stats.avgTemp) / ((s.currentDay : ℚ) + 1) ∧
      (s.simulateDay att tempOf).stats.land = s.stats.land ∧
      (s.simulateDay att tempOf).stats.totalAttempts
        = s.stats.totalAttempts + ((k : ℚ) + 1) ∧
      (s.simulateDay att tempOf).stats.landAttempts
        = s.stats.landAttempts + (k : ℚ) ∧
      k + 1 ≤ 100 ∧
      (s.simulateDay att tempOf).totalDays = s.totalDays ∧
      (s.simulateDay att tempOf).delay = s.delay ∧
      (s.simulateDay att tempOf).isRunning = s.isRunning) ∨
    (s.simulateDay att tempOf = { s with stats := { s.stats with
        totalAttempts := s.stats.totalAttempts + 100,
        landAttempts := s.stats.landAttempts + 100 } }) := by
  cases hday : simLoop att tempOf 100 0 s with
  | mk s1 od =>
    have hframe := simLoop_frame att tempOf 100 0 s
    have hd := simLoop_day att tempOf 100 0 s
    rw [hday] at hframe hd
    dsimp only at hframe hd
    obtain ⟨hf1, hf2, hf3, hf4, hf5, hf6, hf7, hf8⟩ := hframe
    cases od with
    | none =>
      right
      have hs1 : s.simulateDay att tempOf = s1 := by
        unfold OceanSimulation.simulateDay
        rw [hday]
      rcases hd with ⟨-, h2, h3, h4⟩ | ⟨d, k, hsome, -⟩
      · rw [hs1]
        apply OceanSimulation.ext
        · exact hf1
        · exact h2
        · exact hf2
        · exact hf3
        · exact hf4
        · apply Stats.ext
          · exact hf5
          · exact hf6
          · exact hf8
          · rw [h3]; norm_num
          · rw [h4]; norm_num
          · exact hf7
      · exact absurd hsome (by simp)
    | some d =>
      left
      rcases hd with ⟨hnone, -, -, -⟩ | ⟨d2, k, hsome, h2, h3, h4, h5, h6, h7⟩
      · exact absurd hnone (by simp)
      · have hd2 : d2 = d := by
          have h := hsome
          simp only [Prod.snd, Option.some.injEq] at h
          exact h.symm
        subst hd2
        by_cases hct : d2.locationType = LocationType.COASTAL
        · have hs1 : s.simulateDay att tempOf =
              { s1 with
                drops := s1.drops ++ [d2]
                stats := { s1.stats with
                  water := s1.stats.water + 1
                  coastal := jsIncr s1.stats.coastal
                  avgTemp := s1.stats.avgTemp
                    + (d2.temp - s1.stats.avgTemp) / (s1.currentDay : ℚ) } } := by
            unfold OceanSimulation.simulateDay
            rw [hday]
            simp [hct]
          refine ⟨d2, k, ?_, ?_, h3, h4, ?_, ?_, ?_, ?_, ?_, ?_, h7, ?_, ?_, ?_⟩ <;>
            rw [hs1]
          · simp [hf4]
          · simpa using h2
          · simp [hf6]
          · simp [hct, hf7]
          · simp only
            rw [hf8, h2]
            push_cast
            ring
          · simp [hf5]
          · simpa using h5
          · simpa using h6
          · simpa using hf1
          · simpa using hf2
          · simpa using hf3
        · have hs1 : s.simulateDay att tempOf =
              { s1 with
                drops := s1.drops ++ [d2]
                stats := { s1.stats with
                  water := s1.stats.water + 1
                  avgTemp := s1.stats.avgTemp
                    + (d2.temp - s1.stats.avgTemp) / (s1.currentDay : ℚ) } } := by
            unfold OceanSimulation.simulateDay
            rw [hday]
            simp [hct]
          refine ⟨d2, k, ?_, ?_, h3, h4, ?_, ?_, ?_, ?_, ?_, ?_, h7, ?_, ?_, ?_⟩ <;>
            rw [hs1]
          · simp [hf4]
          · simpa using h2
          · simp [hf6]
          · simp [hct, hf7]
          · simp only
            rw [hf8, h2]
            push_cast
            ring
          · simp [hf5]
          · simpa using h5
          · simpa using h6
          · simpa using hf1
          · simpa using hf2
          · simpa using hf3

/-- The main reachability invariant of the driver: the day counter equals the
history length, the attempt counter dominates the day counter, and
`avgTemp * currentDay` equals the sum of all recorded temperatures. -/
theorem reachable_inv {s : OceanSimulation} (hs : Reachable s) :
    s.currentDay = s.drops.length ∧
    (s.currentDay : ℚ) ≤ s.stats.totalAttempts ∧
    s.stats.avgTemp * (s.currentDay : ℚ) = tempSum s.drops := by
  induction hs with
  | init cfg => simp [OceanSimulation.init, tempSum]
  | reset hs ih => simp [OceanSimulation.reset, tempSum]
  | pause hs ih => simpa [OceanSimulation.pause] using ih
  | start hs ih =>
    unfold OceanSimulation.start
    split
    · simpa using ih
    · exact ih
  | setSpeed v hs ih => simpa [OceanSimulation.setSpeed] using ih
  | @step s att tempOf hs ih =>
    obtain ⟨ih1, ih2, ih3⟩ := ih
    rcases simulateDay_spec att tempOf s with
      ⟨d, k, hdrops, hday, hdday, -, -, -, havg, -, htot, -, -, -, -, -⟩ | hfail
    · refine ⟨?_, ?_, ?_⟩
      · rw [hday, hdrops]
        simp [ih1]
      · rw [hday, htot]
        push_cast
        linarith
      · rw [hday, hdrops, havg]
        have hne : ((s.currentDay : ℚ) + 1) ≠ 0 := by positivity
        have hts : tempSum (s.drops ++ [d]) = tempSum s.drops + d.temp := by
          simp [tempSum]
        rw [hts, ← ih3]
        push_cast
        field_simp
        ring
    · rw [hfail]
      refine ⟨ih1, ?_, ih3⟩
      dsimp only
      linarith

/-! ## Claims about the simulation driver -/

/-- C1: in every reachable driver state with at least one recorded Drop, the
running statistic `avgTemp` — maintained online by
`avgTemp += (temp - avgTemp) / currentDay` — equals the arithmetic mean of the
`temp` fields of all recorded Drops. -/
theorem claim_C1 {s : OceanSimulation} (hs : Reachable s)
    (hn : 1 ≤ s.drops.length) :
    s.stats.avgTemp = tempSum s.drops / (s.drops.length : ℚ) := by
  obtain ⟨h1, -, h3⟩ := reachable_inv hs
  rw [h1] at h3
  have hne : ((s.drops.length : ℚ)) ≠ 0 := by
    have : (0 : ℚ) < (s.drops.length : ℚ) := by exact_mod_cast hn
    exact ne_of_gt this
  field_simp
  linarith [h3]

theorem claim_C1_witness :
    1 ≤ ((OceanSimulation.init (JNum.val 5)).simulateDay
        (fun _ => ⟨0, 10, LocationType.DEEP_OCEAN, none⟩) (fun _ => 7)).drops.length ∧
    ((OceanSimulation.init (JNum.val 5)).simulateDay
        (fun _ => ⟨0, 10, LocationType.DEEP_OCEAN, none⟩) (fun _ => 7)).stats.avgTemp
      = tempSum ((OceanSimulation.init (JNum.val 5)).simulateDay
          (fun _ => ⟨0, 10, LocationType.DEEP_OCEAN, none⟩) (fun _ => 7)).drops
        / ((((OceanSimulation.init (JNum.val 5)).simulateDay
          (fun _ => ⟨0, 10, LocationType.DEEP_OCEAN, none⟩) (fun _ => 7)).drops.length : ℕ) : ℚ) :=
  ⟨by simp [OceanSimulation.simulateDay, simLoop, OceanSimulation.init],
   claim_C1 (Reachable.step _ _ (Reachable.init (JNum.val 5)))
     (by simp [OceanSimulation.simulateDay, simLoop, OceanSimulation.init])⟩

/-- C2 (amended): each `simulateDay` call either appends exactly one
fully-populated Drop with `currentDay`, `water`, `coastal` and `avgTemp`
updated together in the same call, or — when all 100 attempts classify LAND —
leaves the history, `currentDay` and those statistics unchanged; in both cases
the attempt counters `totalAttempts`/`landAttempts` do change (by exactly 100
in the failure case), so the failure tick is not observably a no-op on every
statistics field. -/
theorem claim_C2 (att : ℕ → Attempt) (tempOf : ℚ → ℚ) (s : OceanSimulation) :
    (∃ (d : Drop) (k : ℕ),
      (s.simulateDay att tempOf).drops = s.drops ++ [d] ∧
      (s.simulateDay att tempOf).currentDay = s.currentDay + 1 ∧
      d.day = s.currentDay + 1 ∧
      d.temp = tempOf d.lat ∧
      (s.simulateDay att tempOf).stats.water = s.stats.water + 1 ∧
      (s.simulateDay att tempOf).stats.coastal =
        (if d.locationType = LocationType.COASTAL then jsIncr s.stats.coastal
         else s.stats.coastal) ∧
      (s.simulateDay att tempOf).stats.avgTemp =
        s.stats.avgTemp + (d.temp - s.stats.avgTemp) / ((s.currentDay : ℚ) + 1) ∧
      (s.simulateDay att tempOf).stats.land = s.stats.land ∧
      (s.simulateDay att tempOf).stats.totalAttempts
        = s.stats.totalAttempts + ((k : ℚ) + 1) ∧
      (s.simulateDay att tempOf).stats.landAttempts
        = s.stats.landAttempts + (k : ℚ) ∧
      k + 1 ≤ 100 ∧
      (s.simulateDay att tempOf).totalDays = s.totalDays ∧
      (s.simulateDay att tempOf).delay = s.delay ∧
      (s.simulateDay att tempOf).isRunning = s.isRunning) ∨
    (s.simulateDay att tempOf = { s with stats := { s.stats with
        totalAttempts := s.stats.totalAttempts + 100,
        landAttempts := s.stats.landAttempts + 100 } }) :=
  simulateDay_spec att tempOf s

/-- C2 counterexample: on a fresh driver whose every attempt classifies LAND,
`simulateDay` appends no Drop and yet a statistics field (`totalAttempts`)
differs after the call — refuting the claim that a drop-less call leaves no
field of the statistics changed. -/
theorem claim_C2_cex :
    ((OceanSimulation.init (JNum.val 5)).simulateDay
        (fun _ => ⟨0, 0, LocationType.LAND, some 0⟩) (fun _ => 0)).drops
      = (OceanSimulation.init (JNum.val 5)).drops ∧
    ((OceanSimulation.init (JNum.val 5)).simulateDay
        (fun _ => ⟨0, 0, LocationType.LAND, some 0⟩) (fun _ => 0)).stats.totalAttempts
      ≠ (OceanSimulation.init (JNum.val 5)).stats.totalAttempts := by
  have h := simLoop_allLand (fun _ => ⟨0, 0, LocationType.LAND, some 0⟩) (fun _ => 0)
    100 0 (OceanSimulation.init (JNum.val 5)) (fun j hj1 hj2 => rfl)
  constructor
  · unfold OceanSimulation.simulateDay
    rw [h]
  · unfold OceanSimulation.simulateDay
    rw [h]
    simp [OceanSimulation.init]

/-- C3: the spec's statistics record owns a `coastalCount` counter that is
well-defined from construction on; the code violates this — the constructor's
stats literal omits `coastal`, so it is `undefined` on a fresh instance and
becomes `NaN` (not 1) when the first COASTAL drop is committed before any
`reset`. -/
theorem claim_C3 :
    (OceanSimulation.init (JNum.val 5)).stats.coastal = JNum.undef ∧
    ((OceanSimulation.init (JNum.val 5)).simulateDay
        (fun _ => ⟨0, 0, LocationType.COASTAL, some (1/2)⟩) (fun _ => 0)).stats.coastal
      = JNum.nan ∧
    ((OceanSimulation.init (JNum.val 5)).reset.simulateDay
        (fun _ => ⟨0, 0, LocationType.COASTAL, some (1/2)⟩) (fun _ => 0)).stats.coastal
      = JNum.val 1 := by
  refine ⟨rfl, ?_, ?_⟩ <;>
    simp [OceanSimulation.simulateDay, simLoop, jsIncr,
      OceanSimulation.init, OceanSimulation.reset]

/-- C4: in every reachable driver state (after construction, reset, pause,
start, setSpeed, and any number of completed `simulateDay` calls),
`currentDay` equals the history length and `totalAttempts ≥ currentDay`. -/
theorem claim_C4 {s : OceanSimulation} (hs : Reachable s) :
    s.currentDay = s.drops.length ∧
    (s.currentDay : ℚ) ≤ s.stats.totalAttempts :=
  ⟨(reachable_inv hs).1, (reachable_inv hs).2.1⟩

theorem claim_C4_witness :
    (OceanSimulation.init (JNum.val 5)).currentDay
      = (OceanSimulation.init (JNum.val 5)).drops.length ∧
    (((OceanSimulation.init (JNum.val 5)).currentDay : ℕ) : ℚ)
      ≤ (OceanSimulation.init (JNum.val 5)).stats.totalAttempts :=
  claim_C4 (Reachable.init (JNum.val 5))

/-- C5: a `simulateDay` call whose 100 attempts all classify LAND is a no-op
on the day state: `currentDay`, the history, `water`, `coastal` and `avgTemp`
are untouched, while `totalAttempts` and `landAttempts` each grow by exactly
100. -/
theorem claim_C5 (att : ℕ → Attempt) (tempOf : ℚ → ℚ) (s : OceanSimulation)
    (hall : ∀ i, i < 100 → (att i).locationType = LocationType.LAND) :
    s.simulateDay att tempOf = { s with stats := { s.stats with
      totalAttempts := s.stats.totalAttempts + 100,
      landAttempts := s.stats.landAttempts + 100 } } := by
  have h := simLoop_allLand att tempOf 100 0 s (fun j hj1 hj2 => hall j (by omega))
  unfold OceanSimulation.simulateDay
  rw [h]
  norm_num

theorem claim_C5_witness :
    (∀ i : ℕ, i < 100 →
      ((fun _ : ℕ => (⟨0, 0, LocationType.LAND, some 0⟩ : Attempt)) i).locationType
        = LocationType.LAND) ∧
    (OceanSimulation.init (JNum.val 5)).simulateDay
        (fun _ : ℕ => (⟨0, 0, LocationType.LAND, some 0⟩ : Attempt)) (fun _ => 0)
      = { OceanSimulation.init (JNum.val 5) with stats :=
          { (OceanSimulation.init (JNum.val 5)).stats with
            totalAttempts := (OceanSimulation.init (JNum.val 5)).stats.totalAttempts + 100,
            landAttempts := (OceanSimulation.init (JNum.val 5)).stats.landAttempts + 100 } } :=
  ⟨fun _ _ => rfl,
   claim_C5 (fun _ : ℕ => (⟨0, 0, LocationType.LAND, some 0⟩ : Attempt)) (fun _ => 0)
     (OceanSimulation.init (JNum.val 5)) (fun _ _ => rfl)⟩

/-- C6: `setSpeed` maps the control value onto `200 - (s/100)*199`, which is
198.01 ms — not 200 ms — at `s = 1`, and 1 ms at `s = 100`; this contradicts
the claimed (and code-commented) 200 ms slow endpoint. -/
theorem claim_C6 :
    ((OceanSimulation.init (JNum.val 5)).setSpeed 1).delay = 19801 / 100 ∧
    (19801 / 100 : ℚ) ≠ 200 ∧
    ((OceanSimulation.init (JNum.val 5)).setSpeed 100).delay = 1 := by
  refine ⟨?_, by norm_num, ?_⟩ <;>
    · show (200 : ℚ) - _ / 100 * 199 = _
      norm_num

/-- C10: a falsy `config.totalDays` (0, `undefined`, `NaN`) silently yields
the default 1825 trials; any truthy (non-zero) numeric value is taken as is. -/
theorem claim_C10 :
    (OceanSimulation.init (JNum.val 0)).totalDays = 1825 ∧
    (OceanSimulation.init JNum.undef).totalDays = 1825 ∧
    (OceanSimulation.init JNum.nan).totalDays = 1825 ∧
    ∀ q : ℚ, q ≠ 0 → (OceanSimulation.init (JNum.val q)).totalDays = q := by
  refine ⟨?_, rfl, rfl, ?_⟩
  · simp [OceanSimulation.init, jsOrDefault]
  · intro q hq
    simp [OceanSimulation.init, jsOrDefault, hq]

theorem claim_C10_witness :
    (100 : ℚ) ≠ 0 ∧ (OceanSimulation.init (JNum.val 100)).totalDays = 100 :=
  ⟨by simp, claim_C10.2.2.2 100 (by simp)⟩

/-! ## Geometry and classification (app.js) -/

/-- A `[lon, lat]` vertex in decimal degrees, as stored in the coastline
stream and the polygon rings. -/
abbrev Pt := ℝ × ℝ

/-- JavaScript `Math.atan2(y, x)`: the argument of the complex point
`x + y·i`. -/
noncomputable def atan2 (y x : ℝ) : ℝ := Complex.arg { re := x, im := y }

/-- `haversineDistance` (lines 290–298): great-circle distance on a sphere of
radius 6371 km. -/
noncomputable def haversineDistance (lat1 lon1 lat2 lon2 : ℝ) : ℝ :=
  let R : ℝ := 6371
  let dLat := (lat2 - lat1) * Real.pi / 180
  let dLon := (lon2 - lon1) * Real.pi / 180
  let a := Real.sin (dLat / 2) ^ 2
    + Real.cos (lat1 * Real.pi / 180) * Real.cos (lat2 * Real.pi / 180)
      * Real.sin (dLon / 2) ^ 2
  R * 2 * atan2 (Real.sqrt a) (Real.sqrt (1 - a))

/-- `pointToSegmentDistance` (lines 301–313): haversine to the nearer
endpoint for degenerate segments, otherwise haversine to the clamped planar
projection of the query point onto the segment. -/
noncomputable def pointToSegmentDistance (pLat pLon aLat aLon bLat bLon : ℝ) : ℝ :=
  let segLen := haversineDistance aLat aLon bLat bLon
  if segLen < 0.001 then haversineDistance pLat pLon aLat aLon
  else
    let t := max 0 (min 1
      (((pLat - aLat) * (bLat - aLat) + (pLon - aLon) * (bLon - aLon))
        / (segLen * segLen * 0.0001)))
    let projLat := aLat + t * (bLat - aLat)
    let projLon := aLon + t * (bLon - aLon)
    haversineDistance pLat pLon projLat projLon

/-- The body of the sampling loop of `getDistanceToCoast` (lines 323–326):
distance from the query point to the segment from `coords[i]` to
`coords[min(i + 10, len - 1)]`. -/
noncomputable def segDistAt (l : List Pt) (lat lon : ℝ) (i : ℕ) : ℝ :=
  let a := l.getD i (0, 0)
  let b := l.getD (min (i + 10) (l.length - 1)) (0, 0)
  pointToSegmentDistance lat lon a.2 a.1 b.2 b.1

/-- The `for (let i = 0; i < len - 1; i += 10)` minimisation loop of
`getDistanceToCoast`, with JavaScript `Infinity` as `⊤ : EReal`. -/
noncomputable def coastLoop (l : List Pt) (lat lon : ℝ) (i : ℕ) (minDist : EReal) : EReal :=
  if i < l.length - 1 then
    let dist := segDistAt l lat lon i
    coastLoop l lat lon (i + 10)
      (if (dist : EReal) < minDist then (dist : EReal) else minDist)
  else minDist
termination_by l.length - i
decreasing_by omega

/-- `getDistanceToCoast(lat, lon)` (lines 317–330): `Infinity` when no
coastline data is loaded (`!coastlineCoords`), else the minimum over the
stride-10 sampled segments. -/
noncomputable def getDistanceToCoast (cs : Option (List Pt)) (lat lon : ℝ) : EReal :=
  match cs with
  | none => ⊤
  | some l => coastLoop l lat lon 0 ⊤

/-- The crossing test of one ray-casting edge (lines 342–343): the query
latitude lies strictly between the endpoint latitudes (the `!==` on
`yi > lat` / `yj > lat`) and the edge's interpolated longitude at the query
latitude exceeds the query longitude.  `vi` is `polygon[i]`, `vj` the
previous vertex `polygon[j]`. -/
def edgeCrosses (lon lat : ℝ) (vi vj : Pt) : Prop :=
  (¬((vi.2 > lat) ↔ (vj.2 > lat))) ∧
  lon < (vj.1 - vi.1) * (lat - vi.2) / (vj.2 - vi.2) + vi.1

open Classical in
/-- One iteration of the ray-casting loop (lines 338–346): toggle the inside
flag when the edge crosses. -/
noncomputable def edgeStep (lon lat : ℝ) (inside : Bool) (e : Pt × Pt) : Bool :=
  if edgeCrosses lon lat e.1 e.2 then !inside else inside

/-- The edge pairing walked by `isPointInPolygon` (line 338): vertex `i`
together with vertex `j = i - 1`, wrapping to the last vertex for `i = 0`. -/
def polygonEdges (polygon : List Pt) : List (Pt × Pt) :=
  polygon.zip (polygon.rotate (polygon.length - 1))

/-- `isPointInPolygon(lon, lat, polygon)` (lines 336–348): ray-casting
crossing parity. -/
noncomputable def isPointInPolygon (lon lat : ℝ) (polygon : List Pt) : Bool :=
  (polygonEdges polygon).foldl (edgeStep lon lat) false

open Classical in
/-- `isOnLandPolygon(lon, lat)` (lines 351–361): the Antarctic override
(`lat < -80`), then containment in any ring. -/
noncomputable def isOnLandPolygon (polys : List (List Pt)) (lon lat : ℝ) : Bool :=
  if lat < -80 then true
  else polys.any (fun polygon => isPointInPolygon lon lat polygon)

/-- `ZONE_COASTAL_KM` (line 426). -/
def ZONE_COASTAL_KM : EReal := ((1 : ℝ) : EReal)

/-- `ZONE_SHELF_KM` (line 427). -/
def ZONE_SHELF_KM : EReal := ((100 : ℝ) : EReal)

/-- `ZONE_FAR_KM` (line 428). -/
def ZONE_FAR_KM : EReal := ((300 : ℝ) : EReal)

open Classical in
/-- `getTerrainTypeWithDistance(lon, lat)` (lines 442–456). -/
noncomputable def getTerrainTypeWithDistance (polys : List (List Pt))
    (cs : Option (List Pt)) (lon lat : ℝ) : LocationType × EReal :=
  let distKm := getDistanceToCoast cs lat lon
  if isOnLandPolygon polys lon lat then (LocationType.LAND, ((0 : ℝ) : EReal))
  else if distKm ≤ ZONE_COASTAL_KM then (LocationType.COASTAL, distKm)
  else if distKm ≤ ZONE_SHELF_KM then (LocationType.SHELF, distKm)
  else if distKm ≤ ZONE_FAR_KM then (LocationType.FAR, distKm)
  else (LocationType.DEEP_OCEAN, distKm)

open Classical in
/-- Modelled from the spec, §4.4: bucket a distance into the proximity zones,
boundaries inclusive in the lower bucket. -/
noncomputable def zoneOfDistanceSpec (d : EReal) : LocationType :=
  if d ≤ ZONE_COASTAL_KM then LocationType.COASTAL
  else if d ≤ ZONE_SHELF_KM then LocationType.SHELF
  else if d ≤ ZONE_FAR_KM then LocationType.FAR
  else LocationType.DEEP_OCEAN

/-- Number of stride-10 sample indices visited for a stream of `n` points:
the count of `k` with `10·k < n - 1`. -/
def numSampled (n : ℕ) : ℕ := (n - 1 + 9) / 10

/-- Modelled from the spec, §4.3: the minimum of the point-to-segment
distances over the stride-sampled segments (sample `k` starts at index
`10·k`). -/
noncomputable def coastMinSpec (l : List Pt) (lat lon : ℝ) : EReal :=
  (Finset.range (numSampled l.length)).inf
    (fun k => ((segDistAt l lat lon (10 * k) : ℝ) : EReal))

/-! ## Lemmas about the geometry -/

/-- `Math.atan2` of a non-negative first argument is non-negative. -/
theorem atan2_nonneg {y x : ℝ} (hy : 0 ≤ y) : 0 ≤ atan2 y x :=
  Complex.arg_nonneg_iff.mpr hy

/-- The haversine distance is non-negative (its square roots are, so the
angle lands in `[0, π]`). -/
theorem haversineDistance_nonneg (lat1 lon1 lat2 lon2 : ℝ) :
    0 ≤ haversineDistance lat1 lon1 lat2 lon2 := by
  unfold haversineDistance
  exact mul_nonneg (by norm_num) (atan2_nonneg (Real.sqrt_nonneg _))

/-- Both branches of `pointToSegmentDistance` return a haversine distance,
hence a non-negative value. -/
theorem pointToSegmentDistance_nonneg (pLat pLon aLat aLon bLat bLon : ℝ) :
    0 ≤ pointToSegmentDistance pLat pLon aLat aLon bLat bLon := by
  unfold pointToSegmentDistance
  dsimp only
  split_ifs <;> exact haversineDistance_nonneg _ _ _ _

/-- Each sampled segment distance is non-negative. -/
theorem segDistAt_nonneg (l : List Pt) (lat lon : ℝ) (i : ℕ) :
    0 ≤ segDistAt l lat lon i := by
  unfold segDistAt
  exact pointToSegmentDistance_nonneg _ _ _ _ _ _

/-- The loop guard `10·j < len - 1` says exactly that sample `j` is among the
`numSampled len` visited samples. -/
theorem lt_numSampled_iff (n j : ℕ) : 10 * j < n - 1 ↔ j < numSampled n := by
  unfold numSampled
  omega

/-- The JavaScript running-minimum update is `min`. -/
theorem ite_lt_eq_min (a b : EReal) : (if a < b then a else b) = min a b := by
  split_ifs with h
  · exact (min_eq_left h.le).symm
  · exact (min_eq_right (not_lt.1 h)).symm

/-- The minimisation loop, started at sample index `10·j` with accumulator
`m`, computes the minimum of `m` and the remaining sampled segment
distances. -/
theorem coastLoop_eq_inf (l : List Pt) (lat lon : ℝ) :
    ∀ (dd j : ℕ) (m : EReal), numSampled l.length - j ≤ dd →
      coastLoop l lat lon (10 * j) m
        = min m ((Finset.Ico j (numSampled l.length)).inf
            (fun k => ((segDistAt l lat lon (10 * k) : ℝ) : EReal))) := by
  intro dd
  induction dd with
  | zero =>
    intro j m hj
    have hK : numSampled l.length ≤ j := by omega
    have hguard : ¬(10 * j < l.length - 1) := by
      rw [lt_numSampled_iff]
      omega
    rw [coastLoop, if_neg hguard, Finset.Ico_eq_empty (not_lt.2 hK),
      Finset.inf_empty, min_eq_left le_top]
  | succ dd ih =>
    intro j m hj
    by_cases hjK : j < numSampled l.length
    · have hguard : 10 * j < l.length - 1 := (lt_numSampled_iff _ _).mpr hjK
      rw [coastLoop, if_pos hguard]
      have h10 : 10 * j + 10 = 10 * (j + 1) := by ring
      rw [h10, ih (j + 1) _ (by omega), ← Nat.Ico_insert_succ_left hjK,
        Finset.inf_insert, inf_eq_min, ite_lt_eq_min, min_assoc, min_left_comm]
    · have hK : numSampled l.length ≤ j := not_lt.1 hjK
      have hguard : ¬(10 * j < l.length - 1) := by
        rw [lt_numSampled_iff]
        omega
      rw [coastLoop, if_neg hguard, Finset.Ico_eq_empty (not_lt.2 hK),
        Finset.inf_empty, min_eq_left le_top]

/-- The full loop from index 0 with accumulator `Infinity` computes exactly
the spec's stride-sampled minimum. -/
theorem coastLoop_min (l : List Pt) (lat lon : ℝ) :
    coastLoop l lat lon 0 ⊤ = coastMinSpec l lat lon := by
  have h := coastLoop_eq_inf l lat lon (numSampled l.length) 0 ⊤ (by omega)
  rw [Nat.mul_zero] at h
  rw [h, coastMinSpec, Finset.range_eq_Ico, min_eq_right le_top]

/-- `getDistanceToCoast` never returns a negative value. -/
theorem getDistanceToCoast_nonneg (cs : Option (List Pt)) (lat lon : ℝ) :
    0 ≤ getDistanceToCoast cs lat lon := by
  cases cs with
  | none => exact le_top
  | some l =>
    show 0 ≤ coastLoop l lat lon 0 ⊤
    rw [coastLoop_min, coastMinSpec]
    refine Finset.le_inf (fun k _ => ?_)
    exact_mod_cast EReal.coe_nonneg.mpr (segDistAt_nonneg l lat lon (10 * k))

/-! ## Claims about the geometry -/

/-- C8: `getDistanceToCoast` returns `Infinity` when no coastline data is
loaded, and otherwise the minimum of the point-to-segment distances over the
stride-10 sampled segments of the coastline stream; the result is never
negative (and the function is total — no crash). -/
theorem claim_C8 (lat lon : ℝ) (cs : Option (List Pt)) (l : List Pt) :
    getDistanceToCoast none lat lon = ⊤ ∧
    0 ≤ getDistanceToCoast cs lat lon ∧
    getDistanceToCoast (some l) lat lon = coastMinSpec l lat lon :=
  ⟨rfl, getDistanceToCoast_nonneg cs lat lon, coastLoop_min l lat lon⟩

/-- C7: the zone classifier evaluates in order — LAND with the distance
forced to 0 whenever the polygon test succeeds, otherwise the spec's distance
buckets; and the buckets are characterised by the half-open intervals with
the boundary values 1, 100 and 300 falling inclusively into the lower
bucket. -/
theorem claim_C7 (polys : List (List Pt)) (cs : Option (List Pt)) (lon lat : ℝ) :
    (getTerrainTypeWithDistance polys cs lon lat =
      if isOnLandPolygon polys lon lat then (LocationType.LAND, ((0 : ℝ) : EReal))
      else (zoneOfDistanceSpec (getDistanceToCoast cs lat lon),
            getDistanceToCoast cs lat lon)) ∧
    (∀ d : EReal,
      (zoneOfDistanceSpec d = LocationType.COASTAL ↔ d ≤ ZONE_COASTAL_KM) ∧
      (zoneOfDistanceSpec d = LocationType.SHELF
        ↔ ZONE_COASTAL_KM < d ∧ d ≤ ZONE_SHELF_KM) ∧
      (zoneOfDistanceSpec d = LocationType.FAR
        ↔ ZONE_SHELF_KM < d ∧ d ≤ ZONE_FAR_KM) ∧
      (zoneOfDistanceSpec d = LocationType.DEEP_OCEAN ↔ ZONE_FAR_KM < d)) := by
  have h12 : ZONE_COASTAL_KM ≤ ZONE_SHELF_KM := EReal.coe_le_coe_iff.mpr (by norm_num)
  have h23 : ZONE_SHELF_KM ≤ ZONE_FAR_KM := EReal.coe_le_coe_iff.mpr (by norm_num)
  constructor
  · unfold getTerrainTypeWithDistance zoneOfDistanceSpec
    dsimp only
    split_ifs <;> rfl
  · intro d
    unfold zoneOfDistanceSpec
    refine ⟨?_, ?_, ?_, ?_⟩ <;> split_ifs with h1 h2 h3
    · simp [h1]
    · simp [h1]
    · simp [h1]
    · simp [h1]
    · simp [not_lt.2 h1]
    · simp [not_le.1 h1, h2]
    · simp [h2]
    · simp [h2]
    · simp [not_lt.2 (le_trans h1 h12)]
    · simp [not_lt.2 h2]
    · simp [not_le.1 h2, h3]
    · simp [h3]
    · simp [not_lt.2 (le_trans h1 (le_trans h12 h23))]
    · simp [not_lt.2 (le_trans h2 h23)]
    · simp [not_lt.2 h3]
    · simp [not_le.1 h3]

/-- C9: in the ray-casting edge test, a horizontal edge (equal latitudes)
never crosses and leaves the parity flag unchanged, and the guard that gates
the interpolated-longitude division — the XOR of the two latitude
comparisons — forces the divisor `yj - yi` to be non-zero, so the
division-by-zero case is unreachable. -/
theorem claim_C9 (lon lat xi yi xj yj : ℝ) (b : Bool) :
    (yi = yj → ¬ edgeCrosses lon lat (xi, yi) (xj, yj)) ∧
    (yi = yj → edgeStep lon lat b ((xi, yi), (xj, yj)) = b) ∧
    ((¬((yi > lat) ↔ (yj > lat))) → yj - yi ≠ 0) := by
  refine ⟨?_, ?_, ?_⟩
  · intro h hc
    exact hc.1 (by rw [show (xi, yi).2 = yi from rfl, show (xj, yj).2 = yj from rfl, h])
  · intro h
    unfold edgeStep
    rw [if_neg]
    intro hc
    exact hc.1 (by rw [show ((xi, yi), (xj, yj)).1.2 = yi from rfl,
      show ((xi, yi), (xj, yj)).2.2 = yj from rfl, h])
  · intro hxor heq
    apply hxor
    have hy : yi = yj := by linarith [sub_eq_zero.mp heq]
    rw [hy]

theorem claim_C9_witness :
    ((1 : ℝ) = 1 ∧ ¬ edgeCrosses 0 0 (0, 1) (5, 1)
      ∧ edgeStep 0 0 true ((0, 1), (5, 1)) = true) ∧
    (¬(((1 : ℝ) > 0) ↔ ((-1 : ℝ) > 0)) ∧ ((-1 : ℝ) - 1 ≠ 0)) :=
  ⟨⟨rfl, (claim_C9 0 0 0 1 5 1 true).1 rfl, (claim_C9 0 0 0 1 5 1 true).2.1 rfl⟩,
   ⟨by simp, (claim_C9 0 0 0 1 5 (-1) true).2.2 (by simp)⟩⟩
